import Mathlib

/-!
Shallow embedding of the Micro-AMM contract `Mamm` (Mamm.algo.ts, the
version carrying `lp_tokens_issued`, `protocol_fee_bps`, `treasury_address`
and the admin update methods) and proofs about its operations.

Modelling conventions:
* `uint64` values are `Nat` together with explicit `< 2^64` checks at every
  AVM operation that can overflow; the AVM errors (aborting the whole
  transaction) on 64-bit overflow, on subtraction underflow and on division
  by zero, which we model with an `Except` monad: `Except.error` means the
  transaction aborts and no state change is committed.
* `wideRatio([a, b], [c])` of TEALScript is a 128-bit product `a * b`
  divided by `c`; it errors when `c = 0` or when the quotient does not fit
  in 64 bits.  The one-numerator form `wideRatio([a], [c])` only errors on
  `c = 0` (its numerator was already computed in 64-bit arithmetic).
* Addresses are modelled as `Nat`.  Ledger side effects (asset transfers,
  payments, asset creation) do not change the global state of the contract;
  fresh id returned by `sendAssetCreation` is passed in as a parameter.
* Errors carry the kind of the failed assert (`assert` messages of the
  source) or the arithmetic failure.
* Sequential writes to the same global key inside one method are collapsed
  to the final committed value, which is sound because an error anywhere in
  the method reverts every write.
-/

/-- The value 2^64, the AVM machine-word bound. -/
def u64Bound : Nat := 18446744073709551616

/-- Abort causes: the assert messages of the source plus AVM arithmetic
failures. -/
inductive Err where
  /-- an `Only admin can ...` assert failed -/
  | unauthorized
  /-- The assert with message Invalid swap type -/
  | invalidSwapType
  /-- The asserts with messages Invalid input amount and Invalid LP amount -/
  | invalidAmount
  /-- The assert with message Not enough LP supply -/
  | insufficientSupply
  /-- The assert with message Swap too small -/
  | swapTooSmall
  /-- 64-bit overflow of `+` or `*`, or a `wideRatio` quotient not fitting
  in 64 bits -/
  | overflow
  /-- 64-bit underflow of `-` -/
  | underflow
  /-- division with zero divisor -/
  | divisionByZero
  /-- A `verifyPayTxn` or `verifyAssetTransferTxn` mismatch -/
  | txnMismatch
  deriving Repr, DecidableEq

/-- Computation that either aborts the transaction or returns a value. -/
abbrev M (α : Type) : Type := Except Err α

/-- AVM 64-bit addition (`+` errors on overflow). -/
def addU64 (a b : Nat) : M Nat :=
  if a + b < u64Bound then .ok (a + b) else .error .overflow

/-- AVM 64-bit subtraction (`-` errors on underflow). -/
def subU64 (a b : Nat) : M Nat :=
  if b ≤ a then .ok (a - b) else .error .underflow

/-- AVM 64-bit multiplication (`*` errors on overflow). -/
def mulU64 (a b : Nat) : M Nat :=
  if a * b < u64Bound then .ok (a * b) else .error .overflow

/-- AVM 64-bit division (`/` errors on zero divisor, floors otherwise). -/
def divU64 (a b : Nat) : M Nat :=
  if b = 0 then .error .divisionByZero else .ok (a / b)

/-- TEALScript `wideRatio([a, b], [c])`: 128-bit product divided by `c`;
errors on zero divisor and on a quotient that does not fit in 64 bits. -/
def wideRatio2 (a b c : Nat) : M Nat :=
  if c = 0 then .error .divisionByZero
  else if a * b / c < u64Bound then .ok (a * b / c) else .error .overflow

/-- TEALScript `wideRatio([a], [c])` where `a` is an already-computed
64-bit numerator; errors on zero divisor. -/
def wideRatio1 (a c : Nat) : M Nat :=
  if c = 0 then .error .divisionByZero else .ok (a / c)

/-- Model of an assert: continue when `p` holds, abort with `e` otherwise. -/
def require (p : Prop) [Decidable p] (e : Err) : M Unit :=
  if p then .ok () else .error e

/-- A payment transaction, reduced to the fields `verifyPayTxn` checks. -/
structure PayTxn where
  receiver : Nat
  amount : Nat
  deriving Repr, DecidableEq

/-- An asset transfer transaction, reduced to the fields
`verifyAssetTransferTxn` checks. -/
structure AssetTransferTxn where
  sender : Nat
  assetReceiver : Nat
  xferAsset : Nat
  assetAmount : Nat
  deriving Repr, DecidableEq

/-- Model of `verifyPayTxn`: the receiver and amount checks. -/
def verifyPayTxn (t : PayTxn) (receiver amount : Nat) : M Unit :=
  require (t.receiver = receiver ∧ t.amount = amount) .txnMismatch

/-- Model of `verifyAssetTransferTxn`: the sender, receiver, asset and
amount checks. -/
def verifyAssetTransferTxn (t : AssetTransferTxn)
    (sender assetReceiver xferAsset assetAmount : Nat) : M Unit :=
  require (t.sender = sender ∧ t.assetReceiver = assetReceiver ∧
    t.xferAsset = xferAsset ∧ t.assetAmount = assetAmount) .txnMismatch

/-- The version constant `VERSION` of the contract. -/
def VERSION : Nat := 1000

/-- The minimum balance constant `TOKEN_MBR`. -/
def TOKEN_MBR : Nat := 100000

/-- The fixed LP token allotment `LP_TOKEN_SUPPLY` (99_999_999_999_999). -/
def LP_TOKEN_SUPPLY : Nat := 99999999999999

/-- The global state of the `Mamm` contract: one field per
`GlobalStateKey` declaration.  An Algorand global key that was never
written reads as zero (empty string for byte values), so a fresh instance
is all zeroes. -/
structure Mamm where
  primary_token_reserve : Nat
  secondary_token_reserve : Nat
  primary_token_id : Nat
  secondary_token_id : Nat
  total_lp_supply : Nat
  lp_tokens_issued : Nat
  k_value : Nat
  lp_token_id : Nat
  lp_token_name : String
  lp_token_symbol : String
  lp_token_decimals : Nat
  lp_token_url : String
  swap_fee_bps : Nat
  protocol_fee_bps : Nat
  admin : Nat
  treasury_address : Nat
  minimum_balance : Nat
  contract_ending : Nat
  contract_version : Nat
  deriving Repr, DecidableEq

/-- Model of `createApplication`: sets `admin` to the transaction sender; every
other global key is still unset (reads as zero / empty). -/
def createApplication (sender : Nat) : Mamm :=
  { primary_token_reserve := 0
    secondary_token_reserve := 0
    primary_token_id := 0
    secondary_token_id := 0
    total_lp_supply := 0
    lp_tokens_issued := 0
    k_value := 0
    lp_token_id := 0
    lp_token_name := ""
    lp_token_symbol := ""
    lp_token_decimals := 0
    lp_token_url := ""
    swap_fee_bps := 0
    protocol_fee_bps := 0
    admin := sender
    treasury_address := 0
    minimum_balance := 0
    contract_ending := 0
    contract_version := 0 }

/-- Model of `initApplication(mbrTxn, primaryAssetId, secondaryAssetId,
lpAssetName, lpAssetURL, swapFeeBps, protocolFeeBps, treasuryAddress)`;
here `newLpAssetId`
is the fresh asset id the ledger returns from `sendAssetCreation`; the
opt-in transfers and the asset creation do not change global state.  Note
that the method never writes `lp_tokens_issued` and has no check that it
was not already run. -/
def Mamm.initApplication (s : Mamm) (sender appAddr : Nat) (mbrTxn : PayTxn)
    (primaryAssetId secondaryAssetId : Nat) (lpAssetName lpAssetURL : String)
    (swapFeeBps protocolFeeBps treasuryAddress newLpAssetId : Nat) :
    M Mamm := do
  require (s.admin = sender) .unauthorized
  verifyPayTxn mbrTxn appAddr (TOKEN_MBR * 4 + 3000)
  return { s with
    primary_token_reserve := 0
    secondary_token_reserve := 0
    total_lp_supply := LP_TOKEN_SUPPLY
    k_value := 0
    lp_token_id := newLpAssetId
    lp_token_name := lpAssetName
    lp_token_symbol := "MLP"
    lp_token_decimals := 6
    lp_token_url := lpAssetURL
    contract_version := VERSION
    minimum_balance := TOKEN_MBR * 4
    swap_fee_bps := swapFeeBps
    protocol_fee_bps := protocolFeeBps
    treasury_address := treasuryAddress
    primary_token_id := primaryAssetId
    secondary_token_id := secondaryAssetId }

/-- Model of `addLiquidity(primaryAmount, secondaryAmount,
primaryAssetTransfer, secondaryAssetTransfer)`.  Returns the committed state together with
`lpTokensMinted` (the amount transferred to the caller).  Mirrors the
source: the ratio branch divides by `total_lp_supply` (read into the local
`totalLPSupply`), the zero test is on `lp_tokens_issued`, and the second
numerator `secondaryAmount * totalLPSupply` is a narrow 64-bit product. -/
def Mamm.addLiquidity (s : Mamm) (sender appAddr : Nat)
    (primaryAmount secondaryAmount : Nat)
    (primaryAssetTransfer secondaryAssetTransfer : AssetTransferTxn) :
    M (Mamm × Nat) := do
  let primaryReserve := s.primary_token_reserve
  let secondaryReserve := s.secondary_token_reserve
  let totalLPSupply := s.total_lp_supply
  let lpTokensIssued := s.lp_tokens_issued
  verifyAssetTransferTxn primaryAssetTransfer sender appAddr
    s.primary_token_id primaryAmount
  verifyAssetTransferTxn secondaryAssetTransfer sender appAddr
    s.secondary_token_id secondaryAmount
  let lpTokensMinted ←
    if lpTokensIssued = 0 then do
      let p ← mulU64 primaryAmount secondaryAmount
      pure (Nat.sqrt p)
    else do
      let mintFromPrimary ← wideRatio2 primaryAmount totalLPSupply primaryReserve
      let prod ← mulU64 secondaryAmount totalLPSupply
      let mintFromSecondary ← wideRatio1 prod secondaryReserve
      pure (min mintFromPrimary mintFromSecondary)
  let newPrimary ← addU64 primaryReserve primaryAmount
  let newSecondary ← addU64 secondaryReserve secondaryAmount
  let newSupply ← subU64 totalLPSupply lpTokensMinted
  let newK ← mulU64 newPrimary newSecondary
  let newIssued ← addU64 lpTokensIssued lpTokensMinted
  return ({ s with
    primary_token_reserve := newPrimary
    secondary_token_reserve := newSecondary
    total_lp_supply := newSupply
    k_value := newK
    lp_tokens_issued := newIssued }, lpTokensMinted)

/-- Model of `removeLiquidity(burnTxn, lpTokensBurned)`.  Returns the committed
state together with `(primaryWithdrawn, secondaryWithdrawn)`.  Mirrors the
source: both withdrawals divide by `total_lp_supply`; `total_lp_supply` is
first decreased by and then (under the `Burn LP tokens` comment) increased
by `lpTokensBurned`, so it is committed unchanged, while
`lp_tokens_issued` is decreased by `lpTokensBurned` (64-bit underflow
aborts). -/
def Mamm.removeLiquidity (s : Mamm) (sender appAddr : Nat)
    (burnTxn : AssetTransferTxn) (lpTokensBurned : Nat) :
    M (Mamm × Nat × Nat) := do
  let primaryReserve := s.primary_token_reserve
  let secondaryReserve := s.secondary_token_reserve
  let totalLPSupply := s.total_lp_supply
  require (lpTokensBurned > 0) .invalidAmount
  require (lpTokensBurned ≤ totalLPSupply) .insufficientSupply
  verifyAssetTransferTxn burnTxn sender appAddr s.lp_token_id lpTokensBurned
  let primaryWithdrawn ← wideRatio2 lpTokensBurned primaryReserve totalLPSupply
  let secondaryWithdrawn ← wideRatio2 lpTokensBurned secondaryReserve totalLPSupply
  let newPrimary ← subU64 primaryReserve primaryWithdrawn
  let newSecondary ← subU64 secondaryReserve secondaryWithdrawn
  let supplyAfterBurn ← subU64 totalLPSupply lpTokensBurned
  let newK ← mulU64 newPrimary newSecondary
  let committedSupply ← addU64 supplyAfterBurn lpTokensBurned
  let newIssued ← subU64 s.lp_tokens_issued lpTokensBurned
  return ({ s with
    primary_token_reserve := newPrimary
    secondary_token_reserve := newSecondary
    total_lp_supply := committedSupply
    k_value := newK
    lp_tokens_issued := newIssued }, primaryWithdrawn, secondaryWithdrawn)

/-- The fee computation of `swap` (source lines computing `totalFee`,
`protocolFee`, `lpFee` and `inputAfterFee`, in that order):
`totalFee = wideRatio([inputAmount, swapFeeBps], [10000])`,
`protocolFee = wideRatio([totalFee, protocolFeeBps], [swapFeeBps])`,
`lpFee = totalFee - protocolFee`, `inputAfterFee = inputAmount - totalFee`. -/
def feeSplit (inputAmount swapFeeBps protocolFeeBps : Nat) :
    M (Nat × Nat × Nat × Nat) := do
  let totalFee ← wideRatio2 inputAmount swapFeeBps 10000
  let protocolFee ← wideRatio2 totalFee protocolFeeBps swapFeeBps
  let lpFee ← subU64 totalFee protocolFee
  let inputAfterFee ← subU64 inputAmount totalFee
  return (totalFee, protocolFee, lpFee, inputAfterFee)

/-- The per-direction input-side reserve of `swap` (`swapType = 0` reads
the primary reserve, `swapType = 1` the secondary reserve). -/
def Mamm.reserveIn (s : Mamm) (swapType : Nat) : Nat :=
  if swapType = 0 then s.primary_token_reserve else s.secondary_token_reserve

/-- The per-direction output-side reserve of `swap`. -/
def Mamm.reserveOut (s : Mamm) (swapType : Nat) : Nat :=
  if swapType = 0 then s.secondary_token_reserve else s.primary_token_reserve

/-- The amounts a successful `swap` computes (and pays out:
`protocolFee` goes to the treasury when positive, `outputAmount` to the
caller). -/
structure SwapResult where
  totalFee : Nat
  protocolFee : Nat
  lpFee : Nat
  inputAfterFee : Nat
  outputAmount : Nat
  deriving Repr, DecidableEq

/-- Model of `swap(inputAmount, swapType)`; `swapType = 0` is primary to secondary,
`swapType = 1` is secondary to primary.  Returns the committed state and
the computed amounts.  Mirrors the source: direction check, zero-input
check, fee split, constant-product quote
`outputAmount = (reserveOut * inputAfterFee) / (reserveIn + inputAfterFee)`,
zero-output check, and commit of
`newReserveIn = reserveIn + inputAfterFee + lpFee`,
`newReserveOut = reserveOut - outputAmount`,
`k_value = newReserveIn * newReserveOut`. -/
def Mamm.swap (s : Mamm) (sender appAddr : Nat)
    (inputAmount swapType : Nat) : M (Mamm × SwapResult) := do
  let swapFeeBps := s.swap_fee_bps
  let protocolFeeBps := s.protocol_fee_bps
  require (swapType = 0 ∨ swapType = 1) .invalidSwapType
  let reserveIn := s.reserveIn swapType
  let reserveOut := s.reserveOut swapType
  require (inputAmount > 0) .invalidAmount
  let (totalFee, protocolFee, lpFee, inputAfterFee) ←
    feeSplit inputAmount swapFeeBps protocolFeeBps
  let numerator ← mulU64 reserveOut inputAfterFee
  let denominator ← addU64 reserveIn inputAfterFee
  let outputAmount ← divU64 numerator denominator
  require (outputAmount > 0) .swapTooSmall
  let newReserveIn ← addU64 denominator lpFee
  let newReserveOut ← subU64 reserveOut outputAmount
  let newK ← mulU64 newReserveIn newReserveOut
  let s2 :=
    if swapType = 0 then
      { s with
        primary_token_reserve := newReserveIn
        secondary_token_reserve := newReserveOut
        k_value := newK }
    else
      { s with
        secondary_token_reserve := newReserveIn
        primary_token_reserve := newReserveOut
        k_value := newK }
  return (s2, ⟨totalFee, protocolFee, lpFee, inputAfterFee, outputAmount⟩)

/-- Model of `updateSwapFee(newFee)`. -/
def Mamm.updateSwapFee (s : Mamm) (sender newFee : Nat) : M Mamm := do
  require (s.admin = sender) .unauthorized
  return { s with swap_fee_bps := newFee }

/-- Model of `updateProtocolFee(newFee)`. -/
def Mamm.updateProtocolFee (s : Mamm) (sender newFee : Nat) : M Mamm := do
  require (s.admin = sender) .unauthorized
  return { s with protocol_fee_bps := newFee }

/-- Model of `updateAdmin(newAdmin)`. -/
def Mamm.updateAdmin (s : Mamm) (sender newAdmin : Nat) : M Mamm := do
  require (s.admin = sender) .unauthorized
  return { s with admin := newAdmin }

/-- Model of `updateTreasury(newTreasury)`. -/
def Mamm.updateTreasury (s : Mamm) (sender newTreasury : Nat) : M Mamm := do
  require (s.admin = sender) .unauthorized
  return { s with treasury_address := newTreasury }

/-- Model of `updateMinimumBalance(newMBR)`. -/
def Mamm.updateMinimumBalance (s : Mamm) (sender newMBR : Nat) : M Mamm := do
  require (s.admin = sender) .unauthorized
  return { s with minimum_balance := newMBR }

/-- Model of `updateContractEnding(newEnding)`, the lifecycle flag update. -/
def Mamm.updateContractEnding (s : Mamm) (sender newEnding : Nat) : M Mamm := do
  require (s.admin = sender) .unauthorized
  return { s with contract_ending := newEnding }

/-!
Concrete scenario states, used by the concrete-input theorems below.
Addresses: `1` is the admin/creator, `2` and `4` are liquidity providers,
`3` is the treasury, `7` is the address of the application itself.  Asset ids:
primary `10`, secondary `20`, LP token `55`.  The pool is configured with
`swapFeeBps = 30` and `protocolFeeBps = 5`, as in the tests of the repository.
-/

/-- The pool state right after `createApplication` (by address `1`) and a
successful `initApplication`; equals the result of that call (see
`sActive_reached`). -/
def sActive : Mamm :=
  { primary_token_reserve := 0
    secondary_token_reserve := 0
    primary_token_id := 10
    secondary_token_id := 20
    total_lp_supply := 99999999999999
    lp_tokens_issued := 0
    k_value := 0
    lp_token_id := 55
    lp_token_name := "LP"
    lp_token_symbol := "MLP"
    lp_token_decimals := 6
    lp_token_url := "u"
    swap_fee_bps := 30
    protocol_fee_bps := 5
    admin := 1
    treasury_address := 3
    minimum_balance := 400000
    contract_ending := 0
    contract_version := 1000 }

/-- The pool state after the first provider deposits `100000` of each
asset into `sActive` (see `sPool_reached`): reserves `(100000, 100000)`,
`100000` LP units issued, `99999999899999` LP units still undistributed. -/
def sPool : Mamm :=
  { sActive with
      primary_token_reserve := 100000
      secondary_token_reserve := 100000
      total_lp_supply := 99999999899999
      lp_tokens_issued := 100000
      k_value := 10000000000 }

/-- The committed state of `swap(1000, PrimaryToSecondary)` on `sPool`. -/
def sSwapped : Mamm :=
  { sPool with
      primary_token_reserve := 101000
      secondary_token_reserve := 99013
      k_value := 10000313000 }

/-- The committed state of `removeLiquidity(_, 100000)` on `sPool`: only
`lp_tokens_issued` changes (the withdrawals are zero, the reserves and the
undistributed supply stay put). -/
def sBurnAll : Mamm := { sPool with lp_tokens_issued := 0 }

/-- The committed state of `removeLiquidity(_, 40000)` on `sPool`. -/
def sBurn40k : Mamm := { sPool with lp_tokens_issued := 60000 }

/-- The committed state of `removeLiquidity(_, 50000)` on `sPool`. -/
def sBurn50k : Mamm := { sPool with lp_tokens_issued := 50000 }

/-- The committed state of a second `addLiquidity(100000, 100000)` on
`sPool`: the ratio branch divides by the remaining supply, so the second
depositor receives the whole remaining allotment. -/
def sSecondDeposit : Mamm :=
  { sPool with
      primary_token_reserve := 200000
      secondary_token_reserve := 200000
      total_lp_supply := 0
      k_value := 40000000000
      lp_tokens_issued := 99999999999999 }

/-- The committed state of a second `initApplication` on `sPool` (with a
fresh LP asset id `56`): reserves and `k_value` are wiped while
`lp_tokens_issued` stays at `100000`. -/
def sReinit : Mamm :=
  { sPool with
      primary_token_reserve := 0
      secondary_token_reserve := 0
      k_value := 0
      total_lp_supply := 99999999999999
      lp_token_id := 56 }

/-- The state `sPool` with the swap fee set to zero. -/
def sNoFee : Mamm := { sPool with swap_fee_bps := 0 }

/-!
Helper lemmas: dissecting `Except` computations and the AVM arithmetic
primitives, plus reachability of the concrete scenario states.
-/

theorem bindE_ok {α β : Type} (a : α) (f : α → M β) :
    (bind (Except.ok a) f : M β) = f a := rfl

theorem bindE_err {α β : Type} (e : Err) (f : α → M β) :
    (bind (Except.error e) f : M β) = Except.error e := rfl

theorem bindE_ok_iff {α β : Type} {x : M α} {f : α → M β} {b : β} :
    x >>= f = .ok b ↔ ∃ a, x = .ok a ∧ f a = .ok b := by
  cases x with
  | ok a =>
    rw [bindE_ok]
    constructor
    · intro h
      exact ⟨a, rfl, h⟩
    · rintro ⟨a2, ha, h2⟩
      injection ha with ha
      rw [ha]
      exact h2
  | error e =>
    rw [bindE_err]
    constructor
    · intro h
      cases h
    · rintro ⟨a2, ha, h2⟩
      cases ha

theorem pureE_ok_iff {α : Type} {a b : α} : (pure a : M α) = .ok b ↔ a = b := by
  simp only [pure, Except.pure, Except.ok.injEq]

theorem require_ok_iff {p : Prop} [Decidable p] {e : Err} {u : Unit} :
    require p e = .ok u ↔ p := by
  unfold require; split <;> simp_all

theorem require_err {p : Prop} [Decidable p] {e : Err} (h : ¬ p) :
    require p e = .error e := by
  unfold require; split <;> simp_all

theorem addU64_ok_iff {a b c : Nat} :
    addU64 a b = .ok c ↔ a + b < u64Bound ∧ a + b = c := by
  unfold addU64; split <;> simp_all

theorem subU64_ok_iff {a b c : Nat} :
    subU64 a b = .ok c ↔ b ≤ a ∧ a - b = c := by
  unfold subU64; split <;> simp_all

theorem mulU64_ok_iff {a b c : Nat} :
    mulU64 a b = .ok c ↔ a * b < u64Bound ∧ a * b = c := by
  unfold mulU64; split <;> simp_all

theorem divU64_ok_iff {a b c : Nat} :
    divU64 a b = .ok c ↔ b ≠ 0 ∧ a / b = c := by
  unfold divU64; split <;> simp_all

theorem wideRatio2_ok_iff {a b c q : Nat} :
    wideRatio2 a b c = .ok q ↔ c ≠ 0 ∧ a * b / c < u64Bound ∧ a * b / c = q := by
  unfold wideRatio2
  split
  · simp_all
  · split <;> simp_all

theorem wideRatio1_ok_iff {a c q : Nat} :
    wideRatio1 a c = .ok q ↔ c ≠ 0 ∧ a / c = q := by
  unfold wideRatio1; split <;> simp_all

theorem sqrt_1e10 : Nat.sqrt 10000000000 = 100000 := by
  calc Nat.sqrt 10000000000 = Nat.sqrt (100000 * 100000) := by norm_num
  _ = 100000 := Nat.sqrt_eq 100000

/-- Reachability: `sActive` is the state `initApplication` commits on a freshly
created pool. -/
theorem sActive_reached :
    (createApplication 1).initApplication 1 7 ⟨7, 403000⟩ 10 20 "LP" "u"
      30 5 3 55 = .ok sActive := rfl

/-- On a pool with no LP units issued, `addLiquidity` with matching
transfer transactions mints `sqrt(primaryAmount * secondaryAmount)`. -/
theorem addLiquidity_first (s : Mamm) (sender appAddr pa sa m : Nat)
    (h0 : s.lp_tokens_issued = 0)
    (hmul : pa * sa < u64Bound)
    (hm : Nat.sqrt (pa * sa) = m)
    (hp : s.primary_token_reserve + pa < u64Bound)
    (hs : s.secondary_token_reserve + sa < u64Bound)
    (hsub : m ≤ s.total_lp_supply)
    (hk : (s.primary_token_reserve + pa) * (s.secondary_token_reserve + sa) < u64Bound)
    (hi : m < u64Bound) :
    s.addLiquidity sender appAddr pa sa
      ⟨sender, appAddr, s.primary_token_id, pa⟩
      ⟨sender, appAddr, s.secondary_token_id, sa⟩ =
      .ok ({ s with
        primary_token_reserve := s.primary_token_reserve + pa
        secondary_token_reserve := s.secondary_token_reserve + sa
        total_lp_supply := s.total_lp_supply - m
        k_value := (s.primary_token_reserve + pa) * (s.secondary_token_reserve + sa)
        lp_tokens_issued := m }, m) := by
  have hv1 : verifyAssetTransferTxn ⟨sender, appAddr, s.primary_token_id, pa⟩
      sender appAddr s.primary_token_id pa = .ok () := by
    simp [verifyAssetTransferTxn, require]
  have hv2 : verifyAssetTransferTxn ⟨sender, appAddr, s.secondary_token_id, sa⟩
      sender appAddr s.secondary_token_id sa = .ok () := by
    simp [verifyAssetTransferTxn, require]
  unfold Mamm.addLiquidity
  rw [hv1]
  simp only [bindE_ok]
  rw [hv2]
  simp only [bindE_ok, h0]
  rw [if_true]
  rw [show mulU64 pa sa = .ok (pa * sa) from by simp [mulU64, hmul]]
  simp only [bindE_ok, hm]
  rw [show (pure m : M Nat) = .ok m from rfl]
  simp only [bindE_ok]
  rw [show addU64 s.primary_token_reserve pa = .ok (s.primary_token_reserve + pa) from by
    simp [addU64, hp]]
  simp only [bindE_ok]
  rw [show addU64 s.secondary_token_reserve sa = .ok (s.secondary_token_reserve + sa) from by
    simp [addU64, hs]]
  simp only [bindE_ok]
  rw [show subU64 s.total_lp_supply m = .ok (s.total_lp_supply - m) from by
    simp [subU64, hsub]]
  simp only [bindE_ok]
  rw [show mulU64 (s.primary_token_reserve + pa) (s.secondary_token_reserve + sa) =
      .ok ((s.primary_token_reserve + pa) * (s.secondary_token_reserve + sa)) from by
    simp [mulU64, hk]]
  simp only [bindE_ok]
  rw [show addU64 0 m = .ok m from by simp [addU64, hi]]
  simp only [bindE_ok]
  rfl

/-- Reachability: `sPool` is the state after the first liquidity deposit. -/
theorem sPool_reached :
    sActive.addLiquidity 2 7 100000 100000 ⟨2, 7, 10, 100000⟩ ⟨2, 7, 20, 100000⟩ =
      .ok (sPool, 100000) := by
  have h := addLiquidity_first sActive 2 7 100000 100000 100000 rfl
    (by norm_num [u64Bound]) (by norm_num [sqrt_1e10]) (by norm_num [sActive, u64Bound])
    (by norm_num [sActive, u64Bound]) (by norm_num [sActive]) (by norm_num [sActive, u64Bound])
    (by norm_num [u64Bound])
  exact h.trans (by rfl)

/-- Everything a successful `swap` guarantees, in terms of the
per-direction reserves. -/
theorem swap_ok_elim {s : Mamm} {sender appAddr inputAmount swapType : Nat}
    {s2 : Mamm} {r : SwapResult}
    (h : s.swap sender appAddr inputAmount swapType = .ok (s2, r)) :
    (swapType = 0 ∨ swapType = 1) ∧ 0 < inputAmount ∧
    feeSplit inputAmount s.swap_fee_bps s.protocol_fee_bps =
      .ok (r.totalFee, r.protocolFee, r.lpFee, r.inputAfterFee) ∧
    r.outputAmount =
      s.reserveOut swapType * r.inputAfterFee / (s.reserveIn swapType + r.inputAfterFee) ∧
    0 < r.outputAmount ∧ r.outputAmount ≤ s.reserveOut swapType ∧
    s2.reserveIn swapType = s.reserveIn swapType + r.inputAfterFee + r.lpFee ∧
    s2.reserveOut swapType = s.reserveOut swapType - r.outputAmount ∧
    s2.k_value = s2.reserveIn swapType * s2.reserveOut swapType := by
  simp only [Mamm.swap, bindE_ok_iff, pureE_ok_iff, require_ok_iff, addU64_ok_iff,
    subU64_ok_iff, mulU64_ok_iff, divU64_ok_iff, Except.ok.injEq, Prod.mk.injEq] at h
  obtain ⟨_, hty, _, hpos, fs, hfs, num, ⟨hnb, hnum⟩, den, ⟨hdb, hden⟩,
    out, ⟨hdz, hout⟩, _, houtpos, nri, ⟨hrib, hnri⟩, nro, ⟨hole, hnro⟩,
    nk, ⟨hkb, hnk⟩, hcommit, hr⟩ := h
  subst hnum
  subst hden
  subst hout
  subst hnri
  subst hnro
  subst hnk
  subst hcommit
  subst hr
  rcases hty with h0 | h1
  · subst h0
    refine ⟨Or.inl rfl, hpos, by simpa using hfs, rfl, houtpos, hole, ?_, ?_, ?_⟩ <;>
      simp [Mamm.reserveIn, Mamm.reserveOut]
  · subst h1
    refine ⟨Or.inr rfl, hpos, by simpa using hfs, rfl, houtpos, hole, ?_, ?_, ?_⟩ <;>
      simp [Mamm.reserveIn, Mamm.reserveOut]

/-- Everything a successful `feeSplit` guarantees. -/
theorem feeSplit_ok_elim {inputAmount swapFeeBps protocolFeeBps tf pf lf iaf : Nat}
    (h : feeSplit inputAmount swapFeeBps protocolFeeBps = .ok (tf, pf, lf, iaf)) :
    swapFeeBps ≠ 0 ∧
    tf = inputAmount * swapFeeBps / 10000 ∧
    pf = tf * protocolFeeBps / swapFeeBps ∧
    pf ≤ tf ∧ lf = tf - pf ∧ tf ≤ inputAmount ∧ iaf = inputAmount - tf := by
  simp only [feeSplit, bindE_ok_iff, pureE_ok_iff, wideRatio2_ok_iff,
    subU64_ok_iff, Except.ok.injEq, Prod.mk.injEq] at h
  obtain ⟨tf2, ⟨h10, htb, htf⟩, pf2, ⟨hsfb, hpb, hpf⟩, lf2, ⟨hple, hlf⟩,
    iaf2, ⟨htle, hiaf⟩, heq1, heq2, heq3, heq4⟩ := h
  subst htf
  subst hpf
  subst hlf
  subst hiaf
  subst heq1
  subst heq2
  subst heq3
  subst heq4
  exact ⟨hsfb, rfl, rfl, hple, rfl, htle, rfl⟩

/-- A `feeSplit` with a zero swap fee reaches the division by zero. -/
theorem feeSplit_zero_fee (inputAmount protocolFeeBps : Nat) :
    feeSplit inputAmount 0 protocolFeeBps = .error .divisionByZero := by
  unfold feeSplit
  rw [show wideRatio2 inputAmount 0 10000 = .ok 0 from by
    simp [wideRatio2, u64Bound]]
  simp only [bindE_ok]
  rw [show wideRatio2 0 protocolFeeBps 0 = .error .divisionByZero from by
    simp [wideRatio2]]
  simp only [bindE_err]

/-- Claim C1: every successful `swap(inputAmount, swapType)` computes
`totalFee = floor(inputAmount * swapFeeBps / 10000)`,
`protocolFee = floor(totalFee * protocolFeeBps / swapFeeBps)`,
`lpFee = totalFee - protocolFee`, `inputAfterFee = inputAmount - totalFee`,
`outputAmount = floor(reserveOut * inputAfterFee / (reserveIn + inputAfterFee))`,
and commits `newReserveIn = reserveIn + inputAfterFee + lpFee` and
`newReserveOut = reserveOut - outputAmount` on the direction given by
`swapType`. -/
theorem swap_fee_and_quote_formulas (s : Mamm)
    (sender appAddr inputAmount swapType : Nat) (s2 : Mamm) (r : SwapResult)
    (h : s.swap sender appAddr inputAmount swapType = .ok (s2, r)) :
    r.totalFee = inputAmount * s.swap_fee_bps / 10000 ∧
    r.protocolFee = r.totalFee * s.protocol_fee_bps / s.swap_fee_bps ∧
    r.lpFee = r.totalFee - r.protocolFee ∧
    r.inputAfterFee = inputAmount - r.totalFee ∧
    r.outputAmount =
      s.reserveOut swapType * r.inputAfterFee / (s.reserveIn swapType + r.inputAfterFee) ∧
    s2.reserveIn swapType = s.reserveIn swapType + r.inputAfterFee + r.lpFee ∧
    s2.reserveOut swapType = s.reserveOut swapType - r.outputAmount := by
  obtain ⟨hty, hpos, hfs, hq, hop, hol, hri, hro, hk⟩ := swap_ok_elim h
  obtain ⟨hsfb, htf, hpf, hple, hlf, htle, hiaf⟩ := feeSplit_ok_elim hfs
  exact ⟨htf, hpf, hlf, hiaf, hq, hri, hro⟩

/-- Core constant-product inequality. -/
theorem cpmm_growth (rIn rOut x lf out : Nat)
    (hout : out = rOut * x / (rIn + x)) (hle : out ≤ rOut) :
    rIn * rOut ≤ (rIn + x + lf) * (rOut - out) := by
  have h1 : out * (rIn + x) ≤ rOut * x := by
    rw [hout]; exact Nat.div_mul_le_self _ _
  have h1i : (out : ℤ) * ((rIn : ℤ) + (x : ℤ)) ≤ (rOut : ℤ) * (x : ℤ) := by
    exact_mod_cast h1
  have hlei : (out : ℤ) ≤ (rOut : ℤ) := by exact_mod_cast hle
  zify [hle]
  nlinarith [h1i, hlei, mul_le_mul_of_nonneg_left hlei
    (show (0 : ℤ) ≤ (lf : ℤ) by positivity)]

/-- Claim C5: for every successful swap in a state with
`swap_fee_bps > 0` and positive reserves, the committed reserves satisfy
`newReserveIn * newReserveOut >= reserveIn * reserveOut`. -/
theorem swap_invariant_growth (s : Mamm)
    (sender appAddr inputAmount swapType : Nat) (s2 : Mamm) (r : SwapResult)
    (hfee : 0 < s.swap_fee_bps)
    (hpr : 0 < s.primary_token_reserve) (hsr : 0 < s.secondary_token_reserve)
    (h : s.swap sender appAddr inputAmount swapType = .ok (s2, r)) :
    s.reserveIn swapType * s.reserveOut swapType ≤
      s2.reserveIn swapType * s2.reserveOut swapType := by
  obtain ⟨hty, hpos, hfs, hq, hop, hol, hri, hro, hk⟩ := swap_ok_elim h
  rw [hri, hro]
  exact cpmm_growth _ _ _ _ _ hq hol

/-- Everything a successful `removeLiquidity` guarantees. -/
theorem removeLiquidity_ok_elim {s : Mamm} {sender appAddr : Nat}
    {t : AssetTransferTxn} {lpTokensBurned : Nat} {s2 : Mamm} {pw sw : Nat}
    (h : s.removeLiquidity sender appAddr t lpTokensBurned = .ok (s2, pw, sw)) :
    0 < lpTokensBurned ∧ lpTokensBurned ≤ s.total_lp_supply ∧
    pw = lpTokensBurned * s.primary_token_reserve / s.total_lp_supply ∧
    sw = lpTokensBurned * s.secondary_token_reserve / s.total_lp_supply ∧
    pw ≤ s.primary_token_reserve ∧ sw ≤ s.secondary_token_reserve ∧
    s2.primary_token_reserve = s.primary_token_reserve - pw ∧
    s2.secondary_token_reserve = s.secondary_token_reserve - sw ∧
    s2.total_lp_supply = s.total_lp_supply ∧
    lpTokensBurned ≤ s.lp_tokens_issued ∧
    s2.lp_tokens_issued = s.lp_tokens_issued - lpTokensBurned := by
  simp only [Mamm.removeLiquidity, verifyAssetTransferTxn, bindE_ok_iff, pureE_ok_iff,
    require_ok_iff, addU64_ok_iff, subU64_ok_iff, mulU64_ok_iff, wideRatio2_ok_iff,
    Except.ok.injEq, Prod.mk.injEq] at h
  obtain ⟨_, hpos, _, hle, _, htxn, pw2, ⟨hts, hpwb, hpw⟩, sw2, ⟨_, hswb, hsw⟩,
    np, ⟨hpwle, hnp⟩, ns, ⟨hswle, hns⟩, sab, ⟨hble, hsab⟩, k2, ⟨hkb, hk⟩,
    cs, ⟨hcsb, hcs⟩, ni, ⟨hbile, hni⟩, hcommit, hpweq, hsweq⟩ := h
  subst hpw
  subst hsw
  subst hnp
  subst hns
  subst hsab
  subst hk
  subst hcs
  subst hni
  subst hcommit
  subst hpweq
  subst hsweq
  refine ⟨hpos, hle, rfl, rfl, hpwle, hswle, rfl, rfl, ?_, hbile, rfl⟩
  dsimp only
  omega

/-- Claim C9: with `0 < lpTokensBurned ≤ total_lp_supply`, the withdrawals
`removeLiquidity` computes are bounded by the reserves, so the reserve
subtractions cannot underflow. -/
theorem removeLiquidity_withdrawals_bounded (s : Mamm) (lpTokensBurned : Nat)
    (h1 : 0 < lpTokensBurned) (h2 : lpTokensBurned ≤ s.total_lp_supply) :
    lpTokensBurned * s.primary_token_reserve / s.total_lp_supply ≤
      s.primary_token_reserve ∧
    lpTokensBurned * s.secondary_token_reserve / s.total_lp_supply ≤
      s.secondary_token_reserve ∧
    subU64 s.primary_token_reserve
        (lpTokensBurned * s.primary_token_reserve / s.total_lp_supply) =
      .ok (s.primary_token_reserve -
        lpTokensBurned * s.primary_token_reserve / s.total_lp_supply) ∧
    subU64 s.secondary_token_reserve
        (lpTokensBurned * s.secondary_token_reserve / s.total_lp_supply) =
      .ok (s.secondary_token_reserve -
        lpTokensBurned * s.secondary_token_reserve / s.total_lp_supply) ∧
    ∀ (sender appAddr : Nat) (t : AssetTransferTxn) (s2 : Mamm) (pw sw : Nat),
      s.removeLiquidity sender appAddr t lpTokensBurned = .ok (s2, pw, sw) →
      pw = lpTokensBurned * s.primary_token_reserve / s.total_lp_supply ∧
      sw = lpTokensBurned * s.secondary_token_reserve / s.total_lp_supply ∧
      s2.primary_token_reserve = s.primary_token_reserve - pw ∧
      s2.secondary_token_reserve = s.secondary_token_reserve - sw := by
  have hts : 0 < s.total_lp_supply := lt_of_lt_of_le h1 h2
  have key : ∀ r : Nat, lpTokensBurned * r / s.total_lp_supply ≤ r := by
    intro r
    calc lpTokensBurned * r / s.total_lp_supply
        ≤ s.total_lp_supply * r / s.total_lp_supply :=
          Nat.div_le_div_right (Nat.mul_le_mul_right r h2)
      _ = r := Nat.mul_div_cancel_left r hts
  refine ⟨key _, key _, by simp [subU64, key _], by simp [subU64, key _], ?_⟩
  intro sender appAddr t s2 pw sw h
  obtain ⟨_, _, hpw, hsw, _, _, hp2, hs2, _, _, _⟩ := removeLiquidity_ok_elim h
  exact ⟨hpw, hsw, hp2, hs2⟩

/-- Witness for C9 at the concrete pool `sPool` with `lpTokensBurned = 50000`. -/
theorem removeLiquidity_withdrawals_bounded_witness :
    0 < (50000 : Nat) ∧ (50000 : Nat) ≤ sPool.total_lp_supply ∧
    50000 * sPool.primary_token_reserve / sPool.total_lp_supply ≤
      sPool.primary_token_reserve ∧
    sPool.removeLiquidity 2 7 ⟨2, 7, 55, 50000⟩ 50000 = .ok (sBurn50k, 0, 0) ∧
    (0 : Nat) = 50000 * sPool.primary_token_reserve / sPool.total_lp_supply ∧
    sBurn50k.primary_token_reserve = sPool.primary_token_reserve - 0 := by
  have h1 : 0 < (50000 : Nat) := by norm_num
  have h2 : (50000 : Nat) ≤ sPool.total_lp_supply := by norm_num [sPool, sActive]
  have hc : sPool.removeLiquidity 2 7 ⟨2, 7, 55, 50000⟩ 50000 = .ok (sBurn50k, 0, 0) := rfl
  have H := removeLiquidity_withdrawals_bounded sPool 50000 h1 h2
  have H2 := H.2.2.2.2 2 7 ⟨2, 7, 55, 50000⟩ sBurn50k 0 0 hc
  exact ⟨h1, h2, H.1, hc, H2.1, H2.2.2.1⟩

/-- Claim C10: under `protocolFeeBps ≤ swapFeeBps ≤ 10000` the fee split is
conserving and underflow-free whenever it is computed, and it is computed
(no abort) whenever additionally `0 < swapFeeBps` and the input is a 64-bit
value. -/
theorem feeSplit_conserving (inputAmount swapFeeBps protocolFeeBps : Nat)
    (hps : protocolFeeBps ≤ swapFeeBps) (hs10 : swapFeeBps ≤ 10000) :
    (∀ tf pf lf iaf,
      feeSplit inputAmount swapFeeBps protocolFeeBps = .ok (tf, pf, lf, iaf) →
      pf ≤ tf ∧ lf + pf = tf ∧ tf ≤ inputAmount ∧ iaf + tf = inputAmount) ∧
    (0 < swapFeeBps → inputAmount < u64Bound →
      feeSplit inputAmount swapFeeBps protocolFeeBps =
        .ok (inputAmount * swapFeeBps / 10000,
             inputAmount * swapFeeBps / 10000 * protocolFeeBps / swapFeeBps,
             inputAmount * swapFeeBps / 10000 -
               inputAmount * swapFeeBps / 10000 * protocolFeeBps / swapFeeBps,
             inputAmount - inputAmount * swapFeeBps / 10000)) := by
  have htf_le : inputAmount * swapFeeBps / 10000 ≤ inputAmount := by
    calc inputAmount * swapFeeBps / 10000 ≤ inputAmount * 10000 / 10000 :=
        Nat.div_le_div_right (Nat.mul_le_mul_left inputAmount hs10)
    _ = inputAmount := Nat.mul_div_cancel inputAmount (by norm_num)
  constructor
  · intro tf pf lf iaf h
    obtain ⟨hsfb, htf, hpf, hple, hlf, htle, hiaf⟩ := feeSplit_ok_elim h
    refine ⟨hple, ?_, htle, ?_⟩ <;> omega
  · intro hpos hb
    have hpf_le : inputAmount * swapFeeBps / 10000 * protocolFeeBps / swapFeeBps ≤
        inputAmount * swapFeeBps / 10000 := by
      calc inputAmount * swapFeeBps / 10000 * protocolFeeBps / swapFeeBps
          ≤ inputAmount * swapFeeBps / 10000 * swapFeeBps / swapFeeBps :=
            Nat.div_le_div_right (Nat.mul_le_mul_left _ hps)
        _ = inputAmount * swapFeeBps / 10000 := Nat.mul_div_cancel _ hpos
    unfold feeSplit
    rw [show wideRatio2 inputAmount swapFeeBps 10000 =
        .ok (inputAmount * swapFeeBps / 10000) from by
      unfold wideRatio2
      rw [if_neg (by norm_num), if_pos (lt_of_le_of_lt htf_le hb)]]
    simp only [bindE_ok]
    rw [show wideRatio2 (inputAmount * swapFeeBps / 10000) protocolFeeBps swapFeeBps =
        .ok (inputAmount * swapFeeBps / 10000 * protocolFeeBps / swapFeeBps) from by
      unfold wideRatio2
      rw [if_neg (Nat.pos_iff_ne_zero.mp hpos),
        if_pos (lt_of_le_of_lt (le_trans hpf_le htf_le) hb)]]
    simp only [bindE_ok]
    rw [show subU64 (inputAmount * swapFeeBps / 10000)
        (inputAmount * swapFeeBps / 10000 * protocolFeeBps / swapFeeBps) =
        .ok (inputAmount * swapFeeBps / 10000 -
          inputAmount * swapFeeBps / 10000 * protocolFeeBps / swapFeeBps) from by
      simp [subU64, hpf_le]]
    simp only [bindE_ok]
    rw [show subU64 inputAmount (inputAmount * swapFeeBps / 10000) =
        .ok (inputAmount - inputAmount * swapFeeBps / 10000) from by
      simp [subU64, htf_le]]
    simp only [bindE_ok]
    rfl

/-- Witness for C10 at `inputAmount = 1000`, `swapFeeBps = 30`,
`protocolFeeBps = 5`. -/
theorem feeSplit_conserving_witness :
    (5 : Nat) ≤ 30 ∧ (30 : Nat) ≤ 10000 ∧
    feeSplit 1000 30 5 = .ok (3, 0, 3, 997) ∧
    ((0 : Nat) ≤ 3 ∧ 3 + 0 = 3 ∧ (3 : Nat) ≤ 1000 ∧ 997 + 3 = 1000) := by
  have H := feeSplit_conserving 1000 30 5 (by norm_num) (by norm_num)
  exact ⟨by norm_num, by norm_num, rfl, H.1 3 0 3 997 rfl⟩

/-- Claim C6 (amended): with `swap_fee_bps = 0` the protocol-fee
`wideRatio` has a zero divisor and `swap` always aborts, whatever the
caller, direction and input. -/
theorem swap_zero_fee_always_fails (s : Mamm)
    (hz : s.swap_fee_bps = 0) (sender appAddr inputAmount swapType : Nat) :
    ∃ e, s.swap sender appAddr inputAmount swapType = .error e := by
  unfold Mamm.swap
  by_cases hty : swapType = 0 ∨ swapType = 1
  · rw [show require (swapType = 0 ∨ swapType = 1) .invalidSwapType = .ok () from by
      simp [require, hty]]
    simp only [bindE_ok]
    by_cases hin : inputAmount > 0
    · rw [show require (inputAmount > 0) .invalidAmount = .ok () from by
        simp [require, hin]]
      simp only [bindE_ok]
      rw [hz, feeSplit_zero_fee]
      simp only [bindE_err]
      exact ⟨_, rfl⟩
    · rw [require_err hin]
      simp only [bindE_err]
      exact ⟨_, rfl⟩
  · rw [require_err hty]
    simp only [bindE_err]
    exact ⟨_, rfl⟩

/-- Witness for the amended C6 at the concrete pool `sNoFee`. -/
theorem swap_zero_fee_always_fails_witness :
    sNoFee.swap_fee_bps = 0 ∧ ∃ e, sNoFee.swap 4 7 500 1 = .error e :=
  ⟨rfl, swap_zero_fee_always_fails sNoFee rfl 4 7 500 1⟩

/-- Counterexample to C6 as stated: on a pool with `swap_fee_bps = 0` and
ample reserves, `swap(1000, PrimaryToSecondary)` reaches the division by
zero (it is not guarded) and the whole call aborts. -/
theorem swap_zero_fee_divides_by_zero :
    sNoFee.swap 2 7 1000 0 = .error .divisionByZero := rfl

/-- Claim C8: each admin update rejects any non-admin caller with
`Unauthorized` (committing nothing), and for the admin caller overwrites
exactly its one field.  `updateContractEnding` is the lifecycle-flag
update. -/
theorem admin_updates_auth_and_frame (s : Mamm) (sender v : Nat) :
    (sender ≠ s.admin →
      s.updateSwapFee sender v = .error .unauthorized ∧
      s.updateProtocolFee sender v = .error .unauthorized ∧
      s.updateAdmin sender v = .error .unauthorized ∧
      s.updateTreasury sender v = .error .unauthorized ∧
      s.updateMinimumBalance sender v = .error .unauthorized ∧
      s.updateContractEnding sender v = .error .unauthorized) ∧
    (sender = s.admin →
      s.updateSwapFee sender v = .ok { s with swap_fee_bps := v } ∧
      s.updateProtocolFee sender v = .ok { s with protocol_fee_bps := v } ∧
      s.updateAdmin sender v = .ok { s with admin := v } ∧
      s.updateTreasury sender v = .ok { s with treasury_address := v } ∧
      s.updateMinimumBalance sender v = .ok { s with minimum_balance := v } ∧
      s.updateContractEnding sender v = .ok { s with contract_ending := v }) := by
  constructor
  · intro hne
    have hra : ¬ (s.admin = sender) := fun h2 => hne h2.symm
    refine ⟨?_, ?_, ?_, ?_, ?_, ?_⟩ <;>
      simp [Mamm.updateSwapFee, Mamm.updateProtocolFee, Mamm.updateAdmin,
        Mamm.updateTreasury, Mamm.updateMinimumBalance, Mamm.updateContractEnding,
        require_err hra, bindE_err]
  · intro he
    subst he
    refine ⟨?_, ?_, ?_, ?_, ?_, ?_⟩ <;>
      simp [Mamm.updateSwapFee, Mamm.updateProtocolFee, Mamm.updateAdmin,
        Mamm.updateTreasury, Mamm.updateMinimumBalance, Mamm.updateContractEnding,
        require, pureE_ok_iff, bindE_ok]

/-- Witness for C8: a non-admin caller (`9`) is rejected and the admin
(`1`) updates exactly the swap fee, both on `sActive`. -/
theorem admin_updates_auth_and_frame_witness :
    ((9 : Nat) ≠ sActive.admin ∧
      sActive.updateSwapFee 9 77 = .error .unauthorized) ∧
    ((1 : Nat) = sActive.admin ∧
      sActive.updateSwapFee 1 77 = .ok { sActive with swap_fee_bps := 77 }) := by
  have hne : (9 : Nat) ≠ sActive.admin := by decide
  have he : (1 : Nat) = sActive.admin := rfl
  exact ⟨⟨hne, ((admin_updates_auth_and_frame sActive 9 77).1 hne).1⟩,
    ⟨he, ((admin_updates_auth_and_frame sActive 1 77).2 he).1⟩⟩

/-- Witness for C1: scenario 2 of the specification.  On `sPool`
(`swapFeeBps = 30`, `protocolFeeBps = 5`, reserves `(100000, 100000)`),
`swap(1000, PrimaryToSecondary)` commits `sSwapped` and computes
`totalFee = 3`, `protocolFee = 0`, `lpFee = 3`, `inputAfterFee = 997`,
`outputAmount = 987`, matching the quoted formulas. -/
theorem swap_fee_and_quote_formulas_witness :
    sPool.swap 2 7 1000 0 = .ok (sSwapped, ⟨3, 0, 3, 997, 987⟩) ∧
    ((3 : Nat) = 1000 * sPool.swap_fee_bps / 10000 ∧
     (0 : Nat) = 3 * sPool.protocol_fee_bps / sPool.swap_fee_bps ∧
     (3 : Nat) = 3 - 0 ∧
     (997 : Nat) = 1000 - 3 ∧
     (987 : Nat) = sPool.reserveOut 0 * 997 / (sPool.reserveIn 0 + 997) ∧
     sSwapped.reserveIn 0 = sPool.reserveIn 0 + 997 + 3 ∧
     sSwapped.reserveOut 0 = sPool.reserveOut 0 - 987) := by
  have h : sPool.swap 2 7 1000 0 = .ok (sSwapped, ⟨3, 0, 3, 997, 987⟩) := rfl
  exact ⟨h, swap_fee_and_quote_formulas sPool 2 7 1000 0 sSwapped ⟨3, 0, 3, 997, 987⟩ h⟩

/-- Witness for C5: the swap of scenario 2 grows the invariant,
`100000 * 100000 ≤ 101000 * 99013`. -/
theorem swap_invariant_growth_witness :
    0 < sPool.swap_fee_bps ∧ 0 < sPool.primary_token_reserve ∧
    0 < sPool.secondary_token_reserve ∧
    sPool.swap 4 7 1000 0 = .ok (sSwapped, ⟨3, 0, 3, 997, 987⟩) ∧
    sPool.reserveIn 0 * sPool.reserveOut 0 ≤
      sSwapped.reserveIn 0 * sSwapped.reserveOut 0 := by
  have hf : 0 < sPool.swap_fee_bps := by norm_num [sPool, sActive]
  have hp : 0 < sPool.primary_token_reserve := by norm_num [sPool, sActive]
  have hs : 0 < sPool.secondary_token_reserve := by norm_num [sPool, sActive]
  have h : sPool.swap 4 7 1000 0 = .ok (sSwapped, ⟨3, 0, 3, 997, 987⟩) := rfl
  exact ⟨hf, hp, hs, h,
    swap_invariant_growth sPool 4 7 1000 0 sSwapped ⟨3, 0, 3, 997, 987⟩ hf hp hs h⟩

/-- Claim C2 (code bug): on `sPool` every issued LP unit is
`lp_tokens_issued = 100000 = allotment - lp_supply_remaining > 0`, yet
burning all of them pays out `(0, 0)` — the divisor is the remaining
supply `99999999899999`, not the issued units — and commits reserves
still at `(100000, 100000)` with `total_lp_supply` unchanged instead of
restored to the full allotment. -/
theorem removeLiquidity_burn_all_pays_zero_bug :
    0 < sPool.lp_tokens_issued ∧
    sPool.lp_tokens_issued = LP_TOKEN_SUPPLY - sPool.total_lp_supply ∧
    sPool.removeLiquidity 2 7 ⟨2, 7, 55, 100000⟩ sPool.lp_tokens_issued =
      .ok (sBurnAll, 0, 0) ∧
    sBurnAll.primary_token_reserve = 100000 ∧
    sBurnAll.secondary_token_reserve = 100000 ∧
    sBurnAll.total_lp_supply = 99999999899999 := by
  refine ⟨by norm_num [sPool, sActive], rfl, rfl, rfl, rfl, rfl⟩

/-- Claim C3 (code bug): `removeLiquidity` does not return the burned
units to `lp_supply_remaining`: its two writes to `total_lp_supply`
cancel, so after burning `40000` units on `sPool` the conservation
equation `issuedUnits = fixedAllotment - lp_supply_remaining` is broken
(`60000 ≠ 100000`). -/
theorem removeLiquidity_allotment_not_restored_bug :
    sPool.lp_tokens_issued = LP_TOKEN_SUPPLY - sPool.total_lp_supply ∧
    sPool.removeLiquidity 2 7 ⟨2, 7, 55, 40000⟩ 40000 = .ok (sBurn40k, 0, 0) ∧
    sBurn40k.total_lp_supply = sPool.total_lp_supply ∧
    sBurn40k.lp_tokens_issued ≠ LP_TOKEN_SUPPLY - sBurn40k.total_lp_supply := by
  refine ⟨rfl, rfl, rfl, by norm_num [sBurn40k, sPool, sActive, LP_TOKEN_SUPPLY]⟩

/-- Claim C4 (code bug): on `sPool` (100000 issued units, reserves
`(100000, 100000)`), a second balanced deposit of `(100000, 100000)`
should mint `min(100000 * issued / reserve, ...) = 100000`, but the code
multiplies by the remaining supply `total_lp_supply` instead of the
issued units and mints `99999999899999` — the whole remaining
allotment. -/
theorem addLiquidity_mint_uses_remaining_supply_bug :
    sPool.addLiquidity 4 7 100000 100000 ⟨4, 7, 10, 100000⟩ ⟨4, 7, 20, 100000⟩ =
      .ok (sSecondDeposit, 99999999899999) ∧
    min (100000 * sPool.lp_tokens_issued / sPool.primary_token_reserve)
        (100000 * sPool.lp_tokens_issued / sPool.secondary_token_reserve) = 100000 ∧
    (99999999899999 : Nat) ≠ 100000 := by
  refine ⟨rfl, by norm_num [sPool, sActive], by norm_num⟩

/-- Claim C7 (code bug): a complete run in which `initApplication`
succeeds, `addLiquidity` succeeds, and then a second `initApplication` by
the admin succeeds again — there is no single-use guard — wiping the
reserves to `(0, 0)` and re-creating the LP token while `100000` LP units
remain in circulation. -/
theorem initApplication_reinit_after_liquidity_bug :
    (createApplication 1).initApplication 1 7 ⟨7, 403000⟩ 10 20 "LP" "u"
      30 5 3 55 = .ok sActive ∧
    sActive.addLiquidity 2 7 100000 100000 ⟨2, 7, 10, 100000⟩ ⟨2, 7, 20, 100000⟩ =
      .ok (sPool, 100000) ∧
    sPool.initApplication 1 7 ⟨7, 403000⟩ 10 20 "LP" "u" 30 5 3 56 =
      .ok sReinit ∧
    sReinit.primary_token_reserve = 0 ∧ sReinit.lp_tokens_issued = 100000 :=
  ⟨sActive_reached, sPool_reached, rfl, rfl, rfl⟩
